import Mathlib

/-!
Verification of `chatterbot/ext/django_chatterbot/models.py`.

The module defines two Django models, `Statement` and `Response`, and a
handful of methods on `Statement`.  We embed them shallowly:

* A `Statement` row carries its `text` (unique, so rows are keyed by text)
  and its `extra_data` character field.  The `extra_data` field is only ever
  written as either the empty string or `json.dumps` of a JSON object, and
  only ever read through `json.loads`; we therefore model it at the value
  level as `Option Jobj`, with `none` standing for the empty string and
  `some d` standing for the string `json.dumps d` (the Python `json` library
  guarantees `json.loads (json.dumps d) = d`).  States whose `extra_data`
  holds a string that is neither empty nor the dump of an object are outside
  this model; the claims about `extra_data` hypothesise exactly the modelled
  states.
* A `Response` row is a directed edge between two statements (foreign keys,
  modelled by the unique statement texts) with an `occurrence` counter
  (`PositiveIntegerField`, a non-negative machine integer, modelled as `Nat`;
  its declared default is 1).
* The database of `Response` rows is a list `DB`, in insertion order (Django
  returns unordered querysets in primary-key order here; the model fixes the
  insertion order, which is what `.all()` iterates in practice).
* `self.in_response_to` is the set of `Response` rows whose `statement`
  foreign key is `self`; in the model, the rows of the list whose
  `statement` field equals `self.text`.
* Django's queryset operations are translated directly: `filter` is
  `List.filter`, `exists()` is non-emptiness, `get` returns the unique
  match and raises `DoesNotExist` / `MultipleObjectsReturned` otherwise
  (modelled with `Except`), `get_or_create` looks up the row and appends a
  freshly created one (with field defaults) when absent, and `save`
  rewrites the row with the matching key in place.
-/

/-- JSON values, as stored in the `extra_data` JSON object.  Numbers are
modelled as integers (the module never manipulates the values, so the
restriction to non-nested, non-float values is harmless). -/
inductive JVal where
  | null : JVal
  | bool : Bool → JVal
  | int : Int → JVal
  | str : String → JVal
deriving DecidableEq

/-- A parsed JSON object: an insertion-ordered association list of string
keys and values, which is how Python's `json.loads` represents a JSON
object as a `dict`. -/
def Jobj : Type := List (String × JVal)

instance : DecidableEq Jobj := by
  unfold Jobj
  infer_instance

/-- Python dict assignment `d[k] = v` on an insertion-ordered dict: an
existing key keeps its position and gets the new value, a new key is
appended at the end. -/
def objSet (d : Jobj) (k : String) (v : JVal) : Jobj :=
  match d with
  | [] => [(k, v)]
  | (k0, v0) :: rest =>
    if k0 = k then (k, v) :: rest else (k0, v0) :: objSet rest k v

/-- Python dict lookup `d[k]` (the first binding of `k`; parsed dicts have
unique keys). -/
def objGet (d : Jobj) (k : String) : Option JVal :=
  match d with
  | [] => none
  | (k0, v0) :: rest => if k0 = k then some v0 else objGet rest k

/-- A `Statement` row: `text` is unique (rows are keyed by it), `extra_data`
is the JSON character field, modelled at the value level (see the module
comment): `none` is the empty string, `some d` is `json.dumps d`. -/
structure Statement where
  text : String
  extra_data : Option Jobj
deriving DecidableEq

/-- A `Response` row: a directed edge from the statement with text
`statement` to the statement with text `response` (foreign keys by unique
text), with its `occurrence` counter. -/
structure Response where
  statement : String
  response : String
  occurrence : Nat
deriving DecidableEq

/-- The table of `Response` rows, in insertion order. -/
structure DB where
  responses : List Response
deriving DecidableEq

/-- The key match used by `get_or_create(statement=self, response=statement)`
and by `save` (rows are keyed by the `(statement, response)` pair). -/
def respKeyIs (s r : String) (e : Response) : Bool :=
  e.statement = s && e.response = r

/-- Django's `get_or_create` on `self.in_response_to` with
`statement=self, response=statement`: return the existing row when there is
one, otherwise create a row with the field defaults (`occurrence = 1`) and
report `created = True`. -/
def getOrCreate (rs : List Response) (s r : String) :
    Response × Bool × List Response :=
  match rs.find? (respKeyIs s r) with
  | some e => (e, false, rs)
  | none => (⟨s, r, 1⟩, true, rs ++ [⟨s, r, 1⟩])

/-- Django's `save()` on a `Response` instance: rewrite the row with the
same `(statement, response)` key. -/
def saveResp (rs : List Response) (e : Response) : List Response :=
  rs.map (fun x => if respKeyIs e.statement e.response x then e else x)

/-- `Statement.add_response`:
```
response, created = self.in_response_to.get_or_create(
    statement=self, response=statement)
if created:
    response.occurrence += 1
    response.save()
```
-/
def Statement.add_response (self : Statement) (db : DB) (statement : Statement) : DB :=
  match getOrCreate db.responses self.text statement.text with
  | (response, created, rs) =>
    if created then
      ⟨saveResp rs { response with occurrence := response.occurrence + 1 }⟩
    else
      ⟨rs⟩

/-- `Statement.remove_response`:
```
is_deleted = False
response = self.in_response_to.filter(response__text=response_text)
if response.exists():
    is_deleted = True
return is_deleted
```
The method issues no delete; it returns the flag together with the
(unchanged) statement and table. -/
def Statement.remove_response (self : Statement) (db : DB) (response_text : String) :
    Bool × Statement × DB :=
  let response := db.responses.filter
    (fun e => e.statement = self.text && e.response = response_text)
  let is_deleted := if response.isEmpty then false else true
  (is_deleted, self, db)

/-- Errors a Django `get` can raise. -/
inductive DjangoError where
  | doesNotExist : DjangoError
  | multipleObjectsReturned : DjangoError
deriving DecidableEq

/-- Django's `get` on a queryset: the unique matching row, or an error when
there are zero or several. -/
def qsGet (rs : List Response) (p : Response → Bool) : Except DjangoError Response :=
  match rs.filter p with
  | [] => .error .doesNotExist
  | [e] => .ok e
  | _ :: _ :: _ => .error .multipleObjectsReturned

/-- `Statement.get_response_count`:
```
try:
    response = self.in_response_to.get(response__text=statement.text)
    return response.occurrence
except Response.DoesNotExist:
    return 0
```
Only `DoesNotExist` is caught; `MultipleObjectsReturned` propagates.  The
method writes nothing, so it returns the statement and table unchanged. -/
def Statement.get_response_count (self : Statement) (db : DB) (statement : Statement) :
    Except DjangoError Nat × Statement × DB :=
  match qsGet db.responses
      (fun e => e.statement = self.text && e.response = statement.text) with
  | .ok response => (.ok response.occurrence, self, db)
  | .error .doesNotExist => (.ok 0, self, db)
  | .error e => (.error e, self, db)

/-- `Statement.add_extra_data`:
```
if not self.extra_data:
    self.extra_data = '{}'
extra_data = json.loads(self.extra_data)
extra_data[key] = value
self.extra_data = json.dumps(extra_data)
```
In the value-level model of the field, the empty string becomes the empty
object, `json.loads` of a stored object is that object, dict assignment is
`objSet`, and the `json.dumps` result is stored back. -/
def Statement.add_extra_data (self : Statement) (key : String) (value : JVal) : Statement :=
  let stored := match self.extra_data with
    | none => ([] : Jobj)
    | some d => d
  { self with extra_data := some (objSet stored key value) }

/-- Modelled from the spec: `Statement.serialize` calls
`response.serialize()` on each `Response` row, but the provided source
defines no `Response.serialize`.  Per the spec, a Response is "a directed
edge recording that one statement was observed as a reply to another, with
an occurrence count", so its serialization is modelled as the record of
exactly those fields. -/
structure ResponseSer where
  statement : String
  response : String
  occurrence : Nat
deriving DecidableEq

/-- Modelled from the spec: the serialization of one `Response` edge (see
`ResponseSer`). -/
def Response.serialize (e : Response) : ResponseSer :=
  ⟨e.statement, e.response, e.occurrence⟩

/-- The dictionary returned by `Statement.serialize`. -/
structure StatementSer where
  text : String
  in_response_to : List ResponseSer
  extra_data : Jobj
deriving DecidableEq

/-- `Statement.serialize`:
```
data = {}
if not self.extra_data:
    self.extra_data = '{}'
data['text'] = self.text
data['in_response_to'] = []
data['extra_data'] = json.loads(self.extra_data)
for response in self.in_response_to.all():
    data['in_response_to'].append(response.serialize())
return data
```
The method also rewrites an empty `extra_data` field to `'{}'` on the
instance, so it returns the updated statement alongside the dictionary. -/
def Statement.serialize (self : Statement) (db : DB) : StatementSer × Statement :=
  let self' := if self.extra_data.isNone then { self with extra_data := some [] } else self
  let stored := match self'.extra_data with
    | none => ([] : Jobj)
    | some d => d
  ({ text := self'.text
     in_response_to :=
       ((db.responses.filter (fun e => e.statement = self'.text)).map Response.serialize)
     extra_data := stored }, self')

/-- The states of the `Response` table reachable through the module's own
operations: the empty table, extended by `add_response` (the only method
that writes the table; `remove_response` and `get_response_count` write
nothing). -/
inductive Reachable : DB → Prop where
  | init : Reachable ⟨[]⟩
  | add (s r : Statement) (db : DB) :
      Reachable db → Reachable (s.add_response db r)

/-- Python `str.strip()` whitespace: the exact set of codepoints that
CPython's `str.isspace()` accepts and `str.strip()` removes — the ASCII
control range U+0009..U+000D, U+001C..U+001F, the space, U+0085, U+00A0
(no-break space), U+1680, the U+2000..U+200A space separators, U+2028,
U+2029, U+202F, U+205F and U+3000. -/
def isPyWs (c : Char) : Bool :=
  (0x9 ≤ c.toNat && c.toNat ≤ 0xd) || (0x1c ≤ c.toNat && c.toNat ≤ 0x20) ||
  c.toNat = 0x85 || c.toNat = 0xa0 || c.toNat = 0x1680 ||
  (0x2000 ≤ c.toNat && c.toNat ≤ 0x200a) || c.toNat = 0x2028 ||
  c.toNat = 0x2029 || c.toNat = 0x202f || c.toNat = 0x205f || c.toNat = 0x3000

/-- Python `text.strip()` on a list of characters: drop whitespace from both
ends. -/
def strip (cs : List Char) : List Char :=
  ((cs.dropWhile isPyWs).reverse.dropWhile isPyWs).reverse

/-- `Statement.__str__` on the character list of `self.text`:
```
if len(self.text.strip()) > 60:
    return '{}...'.format(self.text[:57])
elif len(self.text.strip()) > 0:
    return self.text
return '<empty>'
```
-/
def strOfText (cs : List Char) : List Char :=
  if 60 < (strip cs).length then cs.take 57 ++ "...".toList
  else if 0 < (strip cs).length then cs
  else "<empty>".toList

/-- `Statement.__str__` as a function on the statement. -/
def Statement.str (self : Statement) : String :=
  String.mk (strOfText self.text.toList)

/-! ### Helper lemmas (shared) -/

/-- When the `(statement, response)` pair already has a row, `get_or_create`
finds it, `created` is false, and `add_response` leaves the table unchanged. -/
theorem addResponse_eq_of_found {db : DB} {s r : Statement} {e : Response}
    (h : db.responses.find? (respKeyIs s.text r.text) = some e) :
    s.add_response db r = db := by
  unfold Statement.add_response getOrCreate
  rw [h]
  rfl

/-- When the pair has no row, `get_or_create` appends a row with the default
`occurrence = 1`, `created` is true, and the `if created` branch saves the
incremented row back. -/
theorem addResponse_eq_of_not_found {db : DB} {s r : Statement}
    (h : db.responses.find? (respKeyIs s.text r.text) = none) :
    s.add_response db r =
      ⟨saveResp (db.responses ++ [⟨s.text, r.text, 1⟩]) ⟨s.text, r.text, 2⟩⟩ := by
  unfold Statement.add_response getOrCreate
  rw [h]
  rfl

/-- `save` rewrites a row with the same key in place, so the number of rows
matching any key predicate is unchanged. -/
theorem countP_saveResp (rs : List Response) (e : Response) (s r : String) :
    (saveResp rs e).countP (respKeyIs s r) = rs.countP (respKeyIs s r) := by
  induction rs with
  | nil => rfl
  | cons x tl ih =>
    by_cases hx : respKeyIs e.statement e.response x = true
    · have hkey : respKeyIs s r e = respKeyIs s r x := by
        simp only [respKeyIs, Bool.and_eq_true, decide_eq_true_eq] at hx
        simp [respKeyIs, hx.1, hx.2]
      simp [saveResp, List.countP_cons, hx, hkey, saveResp] at ih ⊢
      omega
    · simp [saveResp, List.countP_cons, hx] at ih ⊢
      omega

/-! ### Claim theorems -/

/-- Claim C1 (code bug): at the failing input — a table holding one edge
from statement "hello" to response "world" — `remove_response("world")`
returns `True` yet leaves the table (and the edge in it) unchanged: the
method only filters and tests existence, it never deletes, contradicting
its own docstring ("Removes a response from the statement's response
list"). -/
theorem remove_response_reports_true_but_deletes_nothing :
    (Statement.mk "hello" none).remove_response ⟨[⟨"hello", "world", 2⟩]⟩ "world"
      = (true, ⟨"hello", none⟩, ⟨[⟨"hello", "world", 2⟩]⟩) := by
  rfl

/-- Claim C2 (code bug): starting from an empty table, one call of
`add_response` sets the edge's occurrence to 2 (the row is created with the
default 1 and then incremented because `created` is true), and further calls
change nothing (an existing row is returned with `created` false and the
increment is skipped) — so after n calls the occurrence is 2 for every
n ≥ 1, not n as the claim (and the model's own documentation, "the number
of times it has occurred") states. -/
theorem add_response_occurrence_stuck_at_two :
    ((Statement.mk "a" none).add_response ⟨[]⟩ ⟨"b", none⟩
        = ⟨[⟨"a", "b", 2⟩]⟩)
    ∧ ((fun db => (Statement.mk "a" none).add_response db ⟨"b", none⟩)^[3] ⟨[]⟩
        = ⟨[⟨"a", "b", 2⟩]⟩) := by
  constructor
  · rfl
  · rfl

/-- Claim C7: after `s.add_response(r)` the table contains an edge whose
statement is `s` and whose response is `r`, whether or not one existed
before the call. -/
theorem add_response_records_reply (s r : Statement) (db : DB) :
    ∃ e ∈ (s.add_response db r).responses,
      e.statement = s.text ∧ e.response = r.text := by
  cases h : db.responses.find? (respKeyIs s.text r.text) with
  | some e =>
    have hm : e ∈ db.responses := List.mem_of_find?_eq_some h
    have hp := List.find?_some h
    simp only [respKeyIs, Bool.and_eq_true, decide_eq_true_eq] at hp
    refine ⟨e, ?_, hp.1, hp.2⟩
    rw [addResponse_eq_of_found h]
    exact hm
  | none =>
    refine ⟨⟨s.text, r.text, 2⟩, ?_, rfl, rfl⟩
    rw [addResponse_eq_of_not_found h]
    simp [saveResp, respKeyIs]

/-- Claim C8: `remove_response` and `get_response_count` are read-only:
they return the statement object and the whole `Response` table (hence
every row and its occurrence count) unchanged. -/
theorem remove_response_and_count_read_only
    (self : Statement) (db : DB) (t : String) (x : Statement) :
    (self.remove_response db t).2 = (self, db) ∧
    (self.get_response_count db x).2 = (self, db) := by
  constructor
  · rfl
  · unfold Statement.get_response_count
    cases h : qsGet db.responses
        (fun e => e.statement = self.text && e.response = x.text) with
    | ok e => rfl
    | error err => cases err <;> rfl

/-- Claim C5: in every state reachable through the module's operations,
each ordered pair of statements has at most one `Response` row, and
`add_response` on a pair that already has a row leaves the table unchanged
(so it never creates a second edge). -/
theorem response_edge_unique_per_pair {db : DB} (h : Reachable db) :
    (∀ s r : String, db.responses.countP (respKeyIs s r) ≤ 1) ∧
    (∀ s r : Statement, db.responses.any (respKeyIs s.text r.text) = true →
        s.add_response db r = db) := by
  constructor
  · induction h with
    | init => intro s r; simp
    | add s0 r0 db0 h0 ih =>
      intro s r
      cases hf : db0.responses.find? (respKeyIs s0.text r0.text) with
      | some e =>
        rw [addResponse_eq_of_found hf]
        exact ih s r
      | none =>
        rw [addResponse_eq_of_not_found hf]
        show (saveResp (db0.responses ++ [⟨s0.text, r0.text, 1⟩])
            ⟨s0.text, r0.text, 2⟩).countP (respKeyIs s r) ≤ 1
        rw [countP_saveResp, List.countP_append]
        by_cases hb : respKeyIs s r (⟨s0.text, r0.text, 1⟩ : Response) = true
        · have hb' : s = s0.text ∧ r = r0.text := by
            simp only [respKeyIs, Bool.and_eq_true, decide_eq_true_eq] at hb
            exact ⟨hb.1.symm, hb.2.symm⟩
          obtain ⟨rfl, rfl⟩ := hb'
          have hz : db0.responses.countP (respKeyIs s0.text r0.text) = 0 := by
            rw [List.countP_eq_zero]
            intro a ha
            exact List.find?_eq_none.mp hf a ha
          simp [hz, List.countP_cons, hb]
        · have hz : ([(⟨s0.text, r0.text, 1⟩ : Response)]).countP (respKeyIs s r) = 0 := by
            simp [List.countP_cons, hb]
          rw [hz]
          simpa using ih s r
  · intro s r hany
    obtain ⟨e, he, hpe⟩ := List.any_eq_true.mp hany
    obtain ⟨e', hfind⟩ :=
      Option.isSome_iff_exists.mp (List.find?_isSome.mpr ⟨e, he, hpe⟩)
    exact addResponse_eq_of_found hfind

/-- Claim C5 witness: a concrete reachable state (one `add_response` from
the empty table) in which the pair ("a", "b") has at most one row. -/
theorem response_edge_unique_per_pair_witness :
    ((Statement.mk "a" none).add_response ⟨[]⟩ ⟨"b", none⟩).responses.countP
        (respKeyIs "a" "b") ≤ 1 :=
  (response_edge_unique_per_pair
    (Reachable.add ⟨"a", none⟩ ⟨"b", none⟩ ⟨[]⟩ Reachable.init)).1 "a" "b"

/-- Claim C6: in every state reachable through the module's operations,
every `Response` row's occurrence count is at least 1. -/
theorem occurrence_at_least_one_of_reachable {db : DB} (h : Reachable db) :
    ∀ e ∈ db.responses, 1 ≤ e.occurrence := by
  induction h with
  | init => intro e he; simp at he
  | add s r db0 h0 ih =>
    intro e he
    cases hf : db0.responses.find? (respKeyIs s.text r.text) with
    | some e0 =>
      rw [addResponse_eq_of_found hf] at he
      exact ih e he
    | none =>
      rw [addResponse_eq_of_not_found hf] at he
      simp only [saveResp, List.mem_map, List.mem_append, List.mem_singleton] at he
      obtain ⟨x, hx, hxe⟩ := he
      by_cases hk : respKeyIs s.text r.text x = true
      · rw [if_pos hk] at hxe
        subst hxe
        show 1 ≤ 2
        decide
      · rw [if_neg hk] at hxe
        subst hxe
        rcases hx with hx | rfl
        · exact ih x hx
        · exact le_refl 1

/-- Claim C6 witness: the occurrence count of the single row in a concrete
reachable state (one `add_response` from the empty table) is at least 1. -/
theorem occurrence_at_least_one_of_reachable_witness :
    1 ≤ (Response.mk "a" "b" 2).occurrence :=
  occurrence_at_least_one_of_reachable
    (Reachable.add ⟨"a", none⟩ ⟨"b", none⟩ ⟨[]⟩ Reachable.init)
    ⟨"a", "b", 2⟩ (by decide)

/-- Claim C3: on a table in which the pair has at most one row (the
per-pair uniqueness invariant of reachable states),
`get_response_count(x)` returns the occurrence count of the edge from
`self` to the statement whose text is `x.text` when such an edge exists,
and returns 0 — without raising — when no such edge exists. -/
theorem get_response_count_returns_occurrence_or_zero
    (self : Statement) (db : DB) (x : Statement)
    (h : db.responses.countP
        (fun e => e.statement = self.text && e.response = x.text) ≤ 1) :
    (∀ e ∈ db.responses, e.statement = self.text → e.response = x.text →
        (self.get_response_count db x).1 = .ok e.occurrence) ∧
    ((∀ e ∈ db.responses, ¬(e.statement = self.text ∧ e.response = x.text)) →
        (self.get_response_count db x).1 = .ok 0) := by
  constructor
  · intro e he hs hr
    have hmemf : e ∈ db.responses.filter
        (fun e => e.statement = self.text && e.response = x.text) :=
      List.mem_filter.mpr ⟨he, by simp [hs, hr]⟩
    cases hfl : db.responses.filter
        (fun e => e.statement = self.text && e.response = x.text) with
    | nil =>
      rw [hfl] at hmemf
      cases hmemf
    | cons a tl =>
      have hlen : (a :: tl).length ≤ 1 := by
        rw [← hfl, ← List.countP_eq_length_filter]
        exact h
      have htl : tl = [] := by
        cases tl with
        | nil => rfl
        | cons b tb => simp at hlen
      subst htl
      rw [hfl] at hmemf
      have hea : e = a := by simpa using hmemf
      subst hea
      unfold Statement.get_response_count qsGet
      rw [hfl]
  · intro hall
    have hfl : db.responses.filter
        (fun e => e.statement = self.text && e.response = x.text) = [] := by
      rw [List.filter_eq_nil_iff]
      intro a ha hpa
      simp only [Bool.and_eq_true, decide_eq_true_eq] at hpa
      exact hall a ha ⟨hpa.1, hpa.2⟩
    unfold Statement.get_response_count qsGet
    rw [hfl]

/-- Claim C3 witness: on the one-row table with an edge from "a" to "b" of
occurrence 5, `get_response_count` from statement "a" at statement "b"
returns 5. -/
theorem get_response_count_returns_occurrence_or_zero_witness :
    ((Statement.mk "a" none).get_response_count
        ⟨[⟨"a", "b", 5⟩]⟩ ⟨"b", none⟩).1 = .ok 5 :=
  (get_response_count_returns_occurrence_or_zero
      ⟨"a", none⟩ ⟨[⟨"a", "b", 5⟩]⟩ ⟨"b", none⟩ (by decide)).1
    ⟨"a", "b", 5⟩ (by decide) rfl rfl

/-- Claim C4: the dictionary returned by `serialize` has the statement's
text under 'text', one serialized entry per `Response` edge of the
statement — in table order — under 'in_response_to', and the parsed
`extra_data` object (the empty object when the field was empty) under
'extra_data'. -/
theorem serialize_fields_spec (self : Statement) (db : DB) :
    ((self.serialize db).1.text = self.text) ∧
    ((self.serialize db).1.in_response_to =
        (db.responses.filter (fun e => e.statement = self.text)).map Response.serialize) ∧
    (self.extra_data = none → (self.serialize db).1.extra_data = []) ∧
    (∀ d, self.extra_data = some d → (self.serialize db).1.extra_data = d) := by
  obtain ⟨t, ed⟩ := self
  cases ed with
  | none =>
    refine ⟨rfl, rfl, fun _ => rfl, ?_⟩
    intro d hd
    cases hd
  | some d0 =>
    refine ⟨rfl, rfl, ?_, ?_⟩
    · intro hn
      cases hn
    · intro d hd
      cases hd
      rfl

/-- Claim C4 witness: serializing the statement "s" carrying the object
with key "a", against a table with one edge out of "s", yields that object
under 'extra_data'. -/
theorem serialize_fields_spec_witness :
    ((Statement.mk "s" (some [("a", JVal.int 1)])).serialize
        ⟨[⟨"s", "r", 2⟩]⟩).1.extra_data = [("a", JVal.int 1)] :=
  (serialize_fields_spec ⟨"s", some [("a", JVal.int 1)]⟩ ⟨[⟨"s", "r", 2⟩]⟩).2.2.2
    [("a", JVal.int 1)] rfl

/-- Lookup after a dict update at the written key yields the written
value. -/
theorem objGet_objSet_self (d : Jobj) (k : String) (v : JVal) :
    objGet (objSet d k v) k = some v := by
  induction d with
  | nil => simp [objSet, objGet]
  | cons hd tl ih =>
    obtain ⟨k0, v0⟩ := hd
    by_cases h : k0 = k
    · simp [objSet, objGet, h]
    · simp [objSet, objGet, h, ih]

/-- Lookup after a dict update at any other key is unchanged. -/
theorem objGet_objSet_ne (d : Jobj) (k k2 : String) (v : JVal) (h : k2 ≠ k) :
    objGet (objSet d k v) k2 = objGet d k2 := by
  induction d with
  | nil => simp [objSet, objGet, Ne.symm h]
  | cons hd tl ih =>
    obtain ⟨k0, v0⟩ := hd
    by_cases h0 : k0 = k
    · subst h0
      simp [objSet, objGet, Ne.symm h]
    · by_cases h2 : k0 = k2 <;> simp [objSet, objGet, h, h0, h2, ih]

/-- Claim C9: `add_extra_data(k, v)` maps an empty `extra_data` field to
the one-entry object, and maps a field holding object `d` to the object
`d` updated at key `k` with value `v`, in which `k` reads back `v` and
every other key reads back its previous value. -/
theorem add_extra_data_updates_key_preserves_rest
    (self : Statement) (key : String) (value : JVal) :
    (self.extra_data = none →
        (self.add_extra_data key value).extra_data = some [(key, value)]) ∧
    (∀ d, self.extra_data = some d →
        (self.add_extra_data key value).extra_data = some (objSet d key value) ∧
        objGet (objSet d key value) key = some value ∧
        ∀ k2, k2 ≠ key → objGet (objSet d key value) k2 = objGet d k2) := by
  constructor
  · intro h
    simp [Statement.add_extra_data, h, objSet]
  · intro d hd
    refine ⟨by simp [Statement.add_extra_data, hd], objGet_objSet_self d key value,
      fun k2 hk2 => objGet_objSet_ne d key k2 value hk2⟩

/-- Claim C9 witness: adding key "b" to a statement whose `extra_data`
holds the object with the single key "a" appends the new key and leaves
"a" readable with its old value. -/
theorem add_extra_data_updates_key_preserves_rest_witness :
    ((Statement.mk "t" (some [("a", JVal.int 1)])).add_extra_data
        "b" (JVal.int 2)).extra_data
      = some [("a", JVal.int 1), ("b", JVal.int 2)] :=
  ((add_extra_data_updates_key_preserves_rest
      ⟨"t", some [("a", JVal.int 1)]⟩ "b" (JVal.int 2)).2
    [("a", JVal.int 1)] rfl).1

/-- Stripping whitespace from both ends never lengthens the text. -/
theorem strip_length_le (cs : List Char) : (strip cs).length ≤ cs.length := by
  unfold strip
  calc ((cs.dropWhile isPyWs).reverse.dropWhile isPyWs).reverse.length
      = ((cs.dropWhile isPyWs).reverse.dropWhile isPyWs).length :=
        List.length_reverse _
    _ ≤ (cs.dropWhile isPyWs).reverse.length :=
        (List.dropWhile_sublist _).length_le
    _ = (cs.dropWhile isPyWs).length := List.length_reverse _
    _ ≤ cs.length := (List.dropWhile_sublist _).length_le

/-- Claim C10 counterexample: for the 61-character text "a" followed by 60
spaces, the stripped text has length 1, so `__str__` returns the text
unchanged — a string of 61 characters, refuting "at most 60 characters
long". -/
theorem str_can_exceed_sixty_chars :
    60 < ((Statement.mk (String.mk ('a' :: List.replicate 60 ' ')) none).str).length := by
  decide

/-- Claim C10 as amended: `__str__` returns the first 57 characters of the
text followed by '...' when the stripped text is longer than 60 characters,
the text itself when the stripped text is nonempty and at most 60
characters, and '<empty>' when the text is empty or whitespace-only; the
result is at most 60 characters long whenever the text carries no leading
or trailing whitespace (the bound can fail otherwise). -/
theorem str_cases_and_length_bound (cs : List Char) :
    (60 < (strip cs).length → strOfText cs = cs.take 57 ++ "...".toList) ∧
    ((strip cs).length ≤ 60 → 0 < (strip cs).length → strOfText cs = cs) ∧
    ((strip cs).length = 0 → strOfText cs = "<empty>".toList) ∧
    (strip cs = cs → (strOfText cs).length ≤ 60) := by
  refine ⟨?_, ?_, ?_, ?_⟩
  · intro h
    simp [strOfText, h]
  · intro h1 h2
    rw [strOfText, if_neg (by omega), if_pos h2]
  · intro h
    rw [strOfText, if_neg (by omega), if_neg (by omega)]
  · intro hs
    by_cases h : 60 < (strip cs).length
    · rw [strOfText, if_pos h, List.length_append, List.length_take]
      have hlen : 60 < cs.length := by
        have := strip_length_le cs
        omega
      have hmin : min 57 cs.length = 57 := by omega
      rw [hmin]
      simp
    · by_cases h2 : 0 < (strip cs).length
      · rw [strOfText, if_neg h, if_pos h2]
        have : (strip cs).length = cs.length := by rw [hs]
        omega
      · rw [strOfText, if_neg h, if_neg h2]
        decide

/-- Claim C10 amended witness: for the five-character text "hello" the
stripped text is nonempty and short, so `__str__` returns the text
itself. -/
theorem str_cases_and_length_bound_witness :
    strOfText "hello".toList = "hello".toList :=
  (str_cases_and_length_bound "hello".toList).2.1 (by decide) (by decide)
